import Mathlib

/-!
Verification of the Echo Scribe voice-memo pipeline (STT-To-TTS).

The development shallowly embeds the audio transcoding pipeline and the
recording-session state machine of the repository:

* the capture-side PCM16 encoder inside the `onaudioprocess` callback
  (samples are multiplied by 32768 and stored into an `Int16Array`, whose
  JavaScript assignment semantics truncate toward zero and reduce modulo
  2^16, then viewed as little-endian bytes);
* the WAV container builder `bufferToWav` (44-byte RIFF/WAVE header plus a
  quantized PCM payload);
* the session state machine: `stopRecordingFlow` teardown,
  `handleStartRecording`, `handleStopRecording`, and the error paths of
  `synthesizeSpeech`.

Machine floats are modelled as rationals; JavaScript typed-array
conversions are made explicit (`truncQ`, `toInt16`, `toUInt16`).
-/

namespace EchoScribe

/-- JavaScript ToIntegerOrInfinity on a finite value: truncation toward zero. -/
def truncQ (x : ℚ) : ℤ :=
  if x < 0 then ⌈x⌉ else ⌊x⌋

/-- JavaScript ToInt16: reduce modulo 2^16 into the signed range
[-32768, 32767].  This is what storing into an `Int16Array` performs after
truncation. -/
def toInt16 (n : ℤ) : ℤ :=
  if n % 65536 < 32768 then n % 65536 else n % 65536 - 65536

/-- The unsigned 16-bit residue of an integer: the bit pattern a 16-bit
store leaves in memory. -/
def toUInt16 (n : ℤ) : ℕ :=
  (n % 65536).toNat

/-- The two little-endian bytes of a stored 16-bit value. -/
def int16ToBytesLE (n : ℤ) : List ℕ :=
  [toUInt16 n % 256, toUInt16 n / 256]

/-- Little-endian bytes of a 16-bit header field (`DataView.setUint16`,
little-endian). -/
def le16 (n : ℕ) : List ℕ :=
  [n % 256, n / 256 % 256]

/-- Little-endian bytes of a 32-bit header field (`DataView.setUint32`,
little-endian); values are reduced modulo 2^32 byte by byte, exactly as
ToUint32 would. -/
def le32 (n : ℕ) : List ℕ :=
  [n % 256, n / 256 % 256, n / 2 ^ 16 % 256, n / 2 ^ 24 % 256]

/-- Read the little-endian 32-bit value stored at offset `off` of a byte
list (out-of-range reads yield 0, which no claim exercises). -/
def u32At (bs : List ℕ) (off : ℕ) : ℕ :=
  bs.getD off 0 + 256 * bs.getD (off + 1) 0 + 2 ^ 16 * bs.getD (off + 2) 0 +
    2 ^ 24 * bs.getD (off + 3) 0

/-- Reinterpret a two-byte little-endian list as a signed 16-bit value. -/
def int16OfBytesLE : List ℕ → Option ℤ
  | [lo, hi] => some (toInt16 ((lo : ℤ) + 256 * (hi : ℤ)))
  | _ => none

/-! ## Capture-side PCM16 encoder

Source (`onaudioprocess` in the app component):
```
const int16 = new Int16Array(l);
for (let i = 0; i < l; i++) { int16[i] = inputData[i] * 32768; }
... new Uint8Array(int16.buffer) ...
```
The `Int16Array` assignment truncates toward zero and reduces modulo 2^16;
the `Uint8Array` view exposes the stored little-endian bytes. -/

/-- The 16-bit values the capture callback stores: one per input sample. -/
def captureInt16 (samples : List ℚ) : List ℤ :=
  samples.map fun s => toInt16 (truncQ (s * 32768))

/-- The byte stream the capture callback hands to the transport encoder:
the little-endian byte view of the `Int16Array` buffer. -/
def onaudioprocessBytes (samples : List ℚ) : List ℕ :=
  (captureInt16 samples).flatMap int16ToBytesLE

/-- Written from the claim text for the capture encoder: per sample, the
little-endian signed 16-bit integer round(s × 32768). -/
def pcm16SpecRound : List ℚ → List ℕ
  | [] => []
  | s :: rest =>
      toUInt16 (round (s * 32768)) % 256 :: toUInt16 (round (s * 32768)) / 256 ::
        pcm16SpecRound rest

/-- Written from the amended claim text: per sample, truncate s × 32768
toward zero, reduce modulo 2^16, and emit the two little-endian bytes. -/
def pcm16SpecTrunc : List ℚ → List ℕ
  | [] => []
  | s :: rest =>
      toUInt16 (truncQ (s * 32768)) % 256 :: toUInt16 (truncQ (s * 32768)) / 256 ::
        pcm16SpecTrunc rest

/-! ## WAV container builder

Source (`bufferToWav` in the audio-player component).  The header is 44
bytes written through a little-endian `DataView`; the payload is one
quantized 16-bit sample per frame, read from channel 0 only. -/

/-- A decoded PCM sample buffer as the builder sees it: channel count,
frame count, sample rate, and per-channel sample arrays. -/
structure AudioBuffer where
  numberOfChannels : ℕ
  length : ℕ
  sampleRate : ℕ
  channelData : List (List ℚ)

/-- Source: `len = buffer.length * numOfChan * 2`, the data-chunk size the
header declares. -/
def AudioBuffer.dataLen (b : AudioBuffer) : ℕ :=
  b.length * b.numberOfChannels * 2

/-- Source: `sample = Math.max(-1, Math.min(1, channelData[i]))`. -/
def wavClamp (x : ℚ) : ℚ :=
  max (-1) (min 1 x)

/-- Source: `pcm[i] = sample < 0 ? sample * 0x8000 : sample * 0x7FFF`. -/
def wavScale (c : ℚ) : ℚ :=
  if c < 0 then c * 32768 else c * 32767

/-- The full per-sample quantizer of the builder: clamp, scale, then the
`Int16Array` store (truncation plus 16-bit reduction). -/
def wavQuantize (s : ℚ) : ℤ :=
  toInt16 (truncQ (wavScale (wavClamp s)))

/-- The 44 header bytes, in the order the `DataView` writes them. -/
def bufferToWavHeader (b : AudioBuffer) : List ℕ :=
  le32 0x46464952 ++ le32 (36 + b.dataLen) ++ le32 0x45564157 ++ le32 0x20746d66 ++
    le32 16 ++ le16 1 ++ le16 b.numberOfChannels ++ le32 b.sampleRate ++
    le32 (b.sampleRate * 2 * b.numberOfChannels) ++ le16 (b.numberOfChannels * 2) ++
    le16 16 ++ le32 0x61746164 ++ le32 b.dataLen

/-- The PCM payload the builder writes: `buffer.length` quantized samples,
all read from `getChannelData(0)`. -/
def bufferToWavPayload (b : AudioBuffer) : List ℕ :=
  ((List.range b.length).map fun i =>
      int16ToBytesLE (wavQuantize ((b.channelData.getD 0 []).getD i 0))).flatten

/-- The complete WAV byte buffer: header followed by payload. -/
def bufferToWav (b : AudioBuffer) : List ℕ :=
  bufferToWavHeader b ++ bufferToWavPayload b

/-- A two-channel, one-frame buffer: the input that exposes the builder's
channel handling. -/
def stereoBuf : AudioBuffer :=
  { numberOfChannels := 2, length := 1, sampleRate := 44100,
    channelData := [[1 / 2], [1 / 4]] }

/-- A second two-channel, one-frame buffer (all-zero samples). -/
def stereoBuf2 : AudioBuffer :=
  { numberOfChannels := 2, length := 1, sampleRate := 24000,
    channelData := [[0], [0]] }

/-- A single-channel buffer with two frames. -/
def monoBuf : AudioBuffer :=
  { numberOfChannels := 1, length := 2, sampleRate := 24000,
    channelData := [[1 / 2, -1 / 2]] }

/-! ## Recording session state machine

Source (the app component).  The mutable refs and React state are
collected into one record; the teardown helper `stopRecordingFlow`
conditionally releases each resource, emitting one observable teardown
step per release, in the order the statements appear in the source. -/

/-- The session state: React state flags plus the four resource refs
(session promise, media-stream source node, script processor node, audio
context), each modelled as a presence flag. -/
structure AppState where
  isRecording : Bool
  isProcessing : Bool
  transcript : String
  finalAudio : Option String
  error : Option String
  session : Bool
  source : Bool
  processor : Bool
  contextOpen : Bool
deriving DecidableEq

/-- One observable resource-release action of teardown. -/
inductive TeardownStep where
  | closeSession
  | disconnectSource
  | disconnectProcessor
  | closeContext
deriving DecidableEq

/-- Source: `stopRecordingFlow`.  Sets `isRecording` to false, then, in
source order: closes the live session if present, disconnects the capture
source if present, disconnects the processor and clears its callback if
present, closes the audio context if open; each branch nulls its ref. -/
def stopRecordingFlow (s : AppState) : AppState × List TeardownStep :=
  let s1 := { s with isRecording := false }
  let p1 :=
    if s1.session then ({ s1 with session := false }, [TeardownStep.closeSession])
    else (s1, [])
  let p2 :=
    if p1.1.source then ({ p1.1 with source := false }, [TeardownStep.disconnectSource])
    else (p1.1, [])
  let p3 :=
    if p2.1.processor then
      ({ p2.1 with processor := false }, [TeardownStep.disconnectProcessor])
    else (p2.1, [])
  let p4 :=
    if p3.1.contextOpen then ({ p3.1 with contextOpen := false }, [TeardownStep.closeContext])
    else (p3.1, [])
  (p4.1, p1.2 ++ p2.2 ++ p3.2 ++ p4.2)

/-- JavaScript String.prototype.trim, modelled structurally over the
character list: drop whitespace from both ends. -/
def trimChars (l : List Char) : List Char :=
  ((l.dropWhile Char.isWhitespace).reverse.dropWhile Char.isWhitespace).reverse

/-- The trim applied to the accumulated transcript before the no-speech
check. -/
def strTrim (s : String) : String :=
  ⟨trimChars s.data⟩

/-- The error message shown when the settled transcript is blank. -/
def noSpeechMsg : String := "No speech was detected. Please try recording again."

/-- The error message shown when microphone acquisition fails. -/
def micDeniedMsg : String := "Could not access the microphone. Please check permissions and try again."

/-- One call to the external Text & Speech Service. -/
inductive ServiceCall where
  | condense (text : String)
  | synthesize (text : String)
deriving DecidableEq

/-- Source: `handleStopRecording`.  Returns immediately unless recording;
otherwise tears down, waits the settle delay, and either aborts on a blank
transcript or runs condense-then-synthesize.  The two external calls are
oracles passed in as functions, and the returned list records which calls
were issued. -/
def handleStopRecording (summarize synth : String → Except String String)
    (s : AppState) : AppState × List ServiceCall :=
  if s.isRecording = false then (s, [])
  else
    let s1 := (stopRecordingFlow s).1
    let s2 := { s1 with isProcessing := true, error := none }
    if strTrim s2.transcript = "" then
      ({ s2 with error := some noSpeechMsg, isProcessing := false }, [])
    else
      match summarize s2.transcript with
      | Except.error msg =>
          ({ s2 with error := some msg, isProcessing := false },
            [ServiceCall.condense s2.transcript])
      | Except.ok summary =>
          match synth summary with
          | Except.error msg =>
              ({ s2 with error := some msg, isProcessing := false },
                [ServiceCall.condense s2.transcript, ServiceCall.synthesize summary])
          | Except.ok audio =>
              ({ s2 with finalAudio := some audio, isProcessing := false },
                [ServiceCall.condense s2.transcript, ServiceCall.synthesize summary])

/-- Source: `handleStartRecording`.  Unconditionally clears the error, the
final audio, and the transcript; if already recording, runs teardown and
returns; otherwise acquires the microphone (`micOk` is the oracle for
`getUserMedia`) and either wires up the capture graph or records the
permission error.  The list records calls to the Text & Speech Service
(none are ever made here). -/
def handleStartRecording (micOk : Bool) (s : AppState) : AppState × List ServiceCall :=
  let s1 := { s with error := none, finalAudio := none, transcript := "" }
  if s1.isRecording then ((stopRecordingFlow s1).1, [])
  else if micOk then
    ({ s1 with isRecording := true, contextOpen := true, source := true, processor := true, session := true }, [])
  else
    ({ s1 with error := some micDeniedMsg }, [])

/-- A state mid-recording with every resource live and a whitespace-only
transcript. -/
def wsState : AppState :=
  { isRecording := true, isProcessing := false, transcript := "   ",
    finalAudio := none, error := none, session := true, source := true,
    processor := true, contextOpen := true }

/-- A state mid-recording with every resource live and a nonempty
transcript. -/
def fullResState : AppState :=
  { isRecording := true, isProcessing := false, transcript := "hello",
    finalAudio := none, error := none, session := true, source := true,
    processor := true, contextOpen := true }

/-! ## Speech synthesis service

Source (`synthesizeSpeech` in the service module).  The whole body, the
missing-audio check included, sits inside one try block whose catch
rethrows a generic error. -/

/-- A synthesis API response, reduced to what the code inspects: the
optional `candidates[0].content.parts[0].inlineData.data` payload. -/
structure SynthResponse where
  audioData : Option String

/-- The error thrown by the catch block for every synthesis failure. -/
def genericSynthMsg : String := "Failed to synthesize speech."

/-- The error constructed inside the try block when no audio payload is
present. -/
def noAudioMsg : String := "No audio data received from API."

/-- The try-block body: propagate an API failure, reject a payload without
audio data with the specific error, return the audio otherwise. -/
def synthTryBody (apiResult : Except String SynthResponse) : Except String String :=
  match apiResult with
  | Except.error e => Except.error e
  | Except.ok r =>
      match r.audioData with
      | none => Except.error noAudioMsg
      | some d => Except.ok d

/-- Source: the exported function; its catch block replaces any error the
try body raised with the generic message. -/
def synthesizeSpeech (apiResult : Except String SynthResponse) : Except String String :=
  match synthTryBody apiResult with
  | Except.ok d => Except.ok d
  | Except.error _ => Except.error genericSynthMsg

/-! ## Claim theorems

Helper lemmas first, then one theorem per claim (with its
counterexample or witness where the claim calls for one). -/

/-- Reducing modulo 2^16 is unaffected by the signed reinterpretation. -/
theorem toUInt16_toInt16 (n : ℤ) : toUInt16 (toInt16 n) = toUInt16 n := by
  unfold toUInt16 toInt16
  split <;> omega

/-- The byte view of a one-sample store equals the little-endian bytes of
the raw truncated value: the signed reinterpretation inside `Int16Array`
does not change the stored bit pattern. -/
theorem onaudioprocessBytes_cons (s : ℚ) (rest : List ℚ) :
    onaudioprocessBytes (s :: rest) =
      toUInt16 (truncQ (s * 32768)) % 256 :: toUInt16 (truncQ (s * 32768)) / 256 ::
        onaudioprocessBytes rest := by
  simp [onaudioprocessBytes, captureInt16, int16ToBytesLE, toUInt16_toInt16]

/-- The header is always 44 bytes. -/
theorem bufferToWavHeader_length (b : AudioBuffer) :
    (bufferToWavHeader b).length = 44 := rfl

/-- The payload carries two bytes per frame, regardless of channel count. -/
theorem bufferToWavPayload_length (b : AudioBuffer) :
    (bufferToWavPayload b).length = 2 * b.length := by
  unfold bufferToWavPayload
  rw [List.length_flatten, List.map_map]
  have h : (List.length ∘ fun i =>
      int16ToBytesLE (wavQuantize ((b.channelData.getD 0 []).getD i 0))) = fun _ => 2 := by
    funext i
    rfl
  rw [h]
  induction b.length with
  | zero => rfl
  | succ n ih =>
      rw [List.range_succ, List.map_append, List.sum_append]
      simp [ih]
      omega

/-- The builder output is 44 bytes plus two bytes per frame. -/
theorem bufferToWav_length (b : AudioBuffer) :
    (bufferToWav b).length = 44 + 2 * b.length := by
  unfold bufferToWav
  rw [List.length_append, bufferToWavHeader_length, bufferToWavPayload_length]

/-- The builder output, flattened byte by byte: the 44 header bytes in
write order followed by the payload. -/
theorem bufferToWav_eq (b : AudioBuffer) :
    bufferToWav b =
      82 :: 73 :: 70 :: 70 ::
      (36 + b.dataLen) % 256 :: (36 + b.dataLen) / 256 % 256 ::
        (36 + b.dataLen) / 2 ^ 16 % 256 :: (36 + b.dataLen) / 2 ^ 24 % 256 ::
      87 :: 65 :: 86 :: 69 ::
      102 :: 109 :: 116 :: 32 ::
      16 :: 0 :: 0 :: 0 ::
      1 :: 0 ::
      b.numberOfChannels % 256 :: b.numberOfChannels / 256 % 256 ::
      b.sampleRate % 256 :: b.sampleRate / 256 % 256 ::
        b.sampleRate / 2 ^ 16 % 256 :: b.sampleRate / 2 ^ 24 % 256 ::
      b.sampleRate * 2 * b.numberOfChannels % 256 ::
        b.sampleRate * 2 * b.numberOfChannels / 256 % 256 ::
        b.sampleRate * 2 * b.numberOfChannels / 2 ^ 16 % 256 ::
        b.sampleRate * 2 * b.numberOfChannels / 2 ^ 24 % 256 ::
      b.numberOfChannels * 2 % 256 :: b.numberOfChannels * 2 / 256 % 256 ::
      16 :: 0 ::
      100 :: 97 :: 116 :: 97 ::
      b.dataLen % 256 :: b.dataLen / 256 % 256 ::
        b.dataLen / 2 ^ 16 % 256 :: b.dataLen / 2 ^ 24 % 256 ::
      bufferToWavPayload b := by
  simp [bufferToWav, bufferToWavHeader, le32, le16]

/-- Truncation toward zero stays inside any symmetric integer range
containing the argument. -/
theorem truncQ_bounds {x : ℚ} (h1 : -32768 ≤ x) (h2 : x ≤ 32767) :
    -32768 ≤ truncQ x ∧ truncQ x ≤ 32767 := by
  unfold truncQ
  split
  · constructor
    · exact_mod_cast le_trans h1 (Int.le_ceil x)
    · exact Int.ceil_le.mpr (by exact_mod_cast h2)
  · constructor
    · exact Int.le_floor.mpr (by exact_mod_cast h1)
    · exact_mod_cast le_trans (Int.floor_le x) h2

/-- The 16-bit store is the identity on values already in the signed
16-bit range. -/
theorem toInt16_eq_self {n : ℤ} (h1 : -32768 ≤ n) (h2 : n ≤ 32767) :
    toInt16 n = n := by
  unfold toInt16
  split <;> omega

/-- The clamped value lies in the unit interval. -/
theorem wavClamp_bounds (x : ℚ) : -1 ≤ wavClamp x ∧ wavClamp x ≤ 1 := by
  unfold wavClamp
  constructor
  · exact le_max_left _ _
  · exact max_le (by norm_num) (min_le_left _ _)

/-- Scaling a clamped value lands inside the signed 16-bit range. -/
theorem wavScale_bounds {c : ℚ} (h1 : -1 ≤ c) (h2 : c ≤ 1) :
    -32768 ≤ wavScale c ∧ wavScale c ≤ 32767 := by
  unfold wavScale
  split
  · constructor <;> nlinarith
  · constructor <;> nlinarith

/-- Closed form of teardown: the final state always has every resource
flag cleared, and the emitted steps are exactly the present resources in
source order. -/
theorem stopRecordingFlow_eq (s : AppState) :
    stopRecordingFlow s =
      ({ s with isRecording := false, session := false, source := false, processor := false, contextOpen := false },
        (if s.session then [TeardownStep.closeSession] else []) ++
          (if s.source then [TeardownStep.disconnectSource] else []) ++
          (if s.processor then [TeardownStep.disconnectProcessor] else []) ++
          (if s.contextOpen then [TeardownStep.closeContext] else [])) := by
  obtain ⟨r, p, t, f, e, se, so, pr, co⟩ := s
  cases se <;> cases so <;> cases pr <;> cases co <;> rfl

/-- C3: in the builder's second encode pass every float sample is first
clamped to [-1, 1] and then scaled by 32767 when non-negative and by 32768
when negative; the subsequent 16-bit store never wraps, so the written
value is exactly the truncated scaled clamp. -/
theorem c3_wav_quantize_clamp_scale (s : ℚ) :
    wavQuantize s = truncQ (wavScale (wavClamp s)) ∧
      -1 ≤ wavClamp s ∧ wavClamp s ≤ 1 ∧
      wavScale (wavClamp s) =
        (if wavClamp s < 0 then wavClamp s * 32768 else wavClamp s * 32767) ∧
      -32768 ≤ wavQuantize s ∧ wavQuantize s ≤ 32767 := by
  obtain ⟨hc1, hc2⟩ := wavClamp_bounds s
  obtain ⟨hs1, hs2⟩ := wavScale_bounds hc1 hc2
  obtain ⟨ht1, ht2⟩ := truncQ_bounds hs1 hs2
  have heq : wavQuantize s = truncQ (wavScale (wavClamp s)) :=
    toInt16_eq_self ht1 ht2
  exact ⟨heq, hc1, hc2, rfl, heq ▸ ht1, heq ▸ ht2⟩

/-- C2 counterexample: at the sample 131059/131072 the scaled value is
32764.75, which the code truncates to 32764 while the claim's rounding
rule yields 32765, so the emitted bytes differ. -/
theorem c2_round_counterexample :
    onaudioprocessBytes [(131059 : ℚ) / 131072] ≠
      pcm16SpecRound [(131059 : ℚ) / 131072] := by
  have h1 : onaudioprocessBytes [(131059 : ℚ) / 131072] = [252, 127] := by
    norm_num [onaudioprocessBytes, captureInt16, truncQ, toInt16, toUInt16,
      int16ToBytesLE]
    decide
  have h2 : pcm16SpecRound [(131059 : ℚ) / 131072] = [253, 127] := by
    norm_num [pcm16SpecRound, toUInt16, round_eq]
    decide
  rw [h1, h2]
  decide

/-- C2 (amended): the capture-side encoder emits, per sample, the two
little-endian bytes of the 16-bit value obtained by truncating s × 32768
toward zero and reducing modulo 2^16, and the byte length is exactly twice
the sample count. -/
theorem c2_capture_encoder_bytes (samples : List ℚ) :
    onaudioprocessBytes samples = pcm16SpecTrunc samples ∧
      (onaudioprocessBytes samples).length = 2 * samples.length := by
  induction samples with
  | nil => exact ⟨rfl, rfl⟩
  | cons s rest ih =>
      constructor
      · rw [onaudioprocessBytes_cons, ih.1]
        rfl
      · rw [onaudioprocessBytes_cons]
        simp only [List.length_cons, ih.2, List.length_cons]
        omega

/-- C9: the capture encoder performs no clamping: every sample's stored
bytes are the little-endian bytes of the raw truncated scaled value
reduced modulo 2^16, and the out-of-range sample 3/2 (scaled value
49152 > 32767) is stored as the sign-flipped PCM value -16384. -/
theorem c9_capture_no_clamp_wraparound :
    (∀ s : ℚ, onaudioprocessBytes [s] = int16ToBytesLE (truncQ (s * 32768))) ∧
      0 < (3 : ℚ) / 2 ∧ 32767 < (3 : ℚ) / 2 * 32768 ∧
      int16OfBytesLE (onaudioprocessBytes [(3 : ℚ) / 2]) = some (-16384) := by
  have hbytes : onaudioprocessBytes [(3 : ℚ) / 2] = [0, 192] := by
    norm_num [onaudioprocessBytes, captureInt16, truncQ, toInt16, toUInt16,
      int16ToBytesLE]
    decide
  refine ⟨?_, by norm_num, by norm_num, ?_⟩
  · intro s
    rw [onaudioprocessBytes_cons]
    rfl
  · rw [hbytes]
    decide

/-- C1: on a two-channel one-frame buffer the builder emits 46 bytes where
the size invariant demands 48, the header still declares a 4-byte data
chunk, and the payload is only channel 0's two quantized bytes — channel
1's sample (which would quantize to the bytes 255, 31) is never written,
so nothing is interleaved. -/
theorem c1_bufferToWav_stereo_mismatch :
    (bufferToWav stereoBuf).length = 46 ∧
      44 + 2 * stereoBuf.numberOfChannels * stereoBuf.length = 48 ∧
      u32At (bufferToWav stereoBuf) 40 = 4 ∧
      bufferToWavPayload stereoBuf = [255, 63] := by
  have hq : wavQuantize (1 / 2) = 16383 := by
    norm_num [wavQuantize, wavScale, wavClamp, truncQ, toInt16, min_def, max_def]
  have hp : bufferToWavPayload stereoBuf = int16ToBytesLE (wavQuantize (1 / 2)) := by
    simp [bufferToWavPayload, stereoBuf, List.range_succ]
  rw [hq] at hp
  have hb : int16ToBytesLE 16383 = [255, 63] := by decide
  rw [hb] at hp
  have h40 : u32At (bufferToWav stereoBuf) 40 = 4 := by
    rw [bufferToWav_eq]
    rfl
  refine ⟨?_, rfl, h40, hp⟩
  rw [bufferToWav_length]
  rfl

/-- C4 counterexample: on a two-channel one-frame buffer the declared
data-chunk size at offset 40 is 4 while the actual PCM payload is 2 bytes
long. -/
theorem c4_header_counterexample :
    u32At (bufferToWav stereoBuf2) 40 ≠ (bufferToWav stereoBuf2).length - 44 := by
  have h2 : (bufferToWav stereoBuf2).length = 46 := by
    rw [bufferToWav_length]
    rfl
  have h1 : u32At (bufferToWav stereoBuf2) 40 = 4 := by
    rw [bufferToWav_eq]
    rfl
  rw [h1, h2]
  decide

/-- C4 (amended): for every buffer with one channel (the only kind this
app ever builds, and data size within the 32-bit header field), the output
starts with RIFF, carries WAVE at offset 8, declares 36 + dataSize at
offset 4, and the little-endian uint32 at offset 40 equals the PCM payload
length exactly. -/
theorem c4_header_correct_mono (b : AudioBuffer) (hc : b.numberOfChannels = 1)
    (hb : 36 + b.dataLen < 2 ^ 32) :
    (bufferToWav b).take 4 = [82, 73, 70, 70] ∧
      ((bufferToWav b).drop 8).take 4 = [87, 65, 86, 69] ∧
      u32At (bufferToWav b) 4 = 36 + b.dataLen ∧
      u32At (bufferToWav b) 40 = (bufferToWav b).length - 44 := by
  have h4 : u32At (bufferToWav b) 4 =
      (36 + b.dataLen) % 256 + 256 * ((36 + b.dataLen) / 256 % 256) +
        2 ^ 16 * ((36 + b.dataLen) / 2 ^ 16 % 256) +
        2 ^ 24 * ((36 + b.dataLen) / 2 ^ 24 % 256) := by
    rw [bufferToWav_eq]
    rfl
  have h40 : u32At (bufferToWav b) 40 =
      b.dataLen % 256 + 256 * (b.dataLen / 256 % 256) +
        2 ^ 16 * (b.dataLen / 2 ^ 16 % 256) +
        2 ^ 24 * (b.dataLen / 2 ^ 24 % 256) := by
    rw [bufferToWav_eq]
    rfl
  have hlen : (bufferToWav b).length = 44 + 2 * b.length := bufferToWav_length b
  have hdl : b.dataLen = 2 * b.length := by
    unfold AudioBuffer.dataLen
    rw [hc]
    ring
  have hriff : (bufferToWav b).take 4 = [82, 73, 70, 70] := by
    rw [bufferToWav_eq]
    rfl
  have hwave : ((bufferToWav b).drop 8).take 4 = [87, 65, 86, 69] := by
    rw [bufferToWav_eq]
    rfl
  refine ⟨hriff, hwave, ?_, ?_⟩
  · rw [h4]
    omega
  · rw [h40, hlen]
    omega

/-- C4 witness: the amended header theorem instantiated on a concrete
mono buffer. -/
theorem c4_header_correct_mono_witness :
    monoBuf.numberOfChannels = 1 ∧ 36 + monoBuf.dataLen < 2 ^ 32 ∧
      ((bufferToWav monoBuf).take 4 = [82, 73, 70, 70] ∧
        ((bufferToWav monoBuf).drop 8).take 4 = [87, 65, 86, 69] ∧
        u32At (bufferToWav monoBuf) 4 = 36 + monoBuf.dataLen ∧
        u32At (bufferToWav monoBuf) 40 = (bufferToWav monoBuf).length - 44) :=
  ⟨rfl, by decide, c4_header_correct_mono monoBuf rfl (by decide)⟩

/-- C5: a session that stops while its settled transcript is empty or
whitespace-only fails with the no-speech error and issues no call to the
Text & Speech Service. -/
theorem c5_empty_transcript_no_calls (summarize synth : String → Except String String)
    (s : AppState) (hrec : s.isRecording = true) (htrim : strTrim s.transcript = "") :
    (handleStopRecording summarize synth s).1.error = some noSpeechMsg ∧
      (handleStopRecording summarize synth s).2 = [] := by
  unfold handleStopRecording
  rw [hrec]
  simp [stopRecordingFlow_eq, htrim]

/-- C5 witness: the no-speech abort on a concrete whitespace-only
transcript, with oracles that would succeed if they were ever called. -/
theorem c5_empty_transcript_no_calls_witness :
    wsState.isRecording = true ∧ strTrim wsState.transcript = "" ∧
      ((handleStopRecording (fun t => Except.ok t) (fun t => Except.ok t) wsState).1.error =
          some noSpeechMsg ∧
        (handleStopRecording (fun t => Except.ok t) (fun t => Except.ok t) wsState).2 = []) :=
  ⟨rfl, by decide, c5_empty_transcript_no_calls _ _ wsState rfl (by decide)⟩

/-- C6 counterexample: from a fully-resourced recording state, teardown
does not follow the claimed order (capture source, processing callback,
live session, capture device) — the live session is closed first. -/
theorem c6_order_counterexample :
    (stopRecordingFlow fullResState).2 ≠
      [TeardownStep.disconnectSource, TeardownStep.disconnectProcessor,
        TeardownStep.closeSession, TeardownStep.closeContext] := by
  rw [stopRecordingFlow_eq]
  decide

/-- C6 (amended): from any state holding all four resources, teardown runs
in the strict source order: close the live-transcription session, then
disconnect the capture source, then disconnect and clear the processing
callback, then release the capture device by closing the audio context. -/
theorem c6_teardown_order (s : AppState) (h1 : s.session = true) (h2 : s.source = true)
    (h3 : s.processor = true) (h4 : s.contextOpen = true) :
    (stopRecordingFlow s).2 =
      [TeardownStep.closeSession, TeardownStep.disconnectSource,
        TeardownStep.disconnectProcessor, TeardownStep.closeContext] := by
  rw [stopRecordingFlow_eq]
  simp [h1, h2, h3, h4]

/-- C6 witness: the teardown order on a concrete fully-resourced state. -/
theorem c6_teardown_order_witness :
    fullResState.session = true ∧ fullResState.source = true ∧
      fullResState.processor = true ∧ fullResState.contextOpen = true ∧
      (stopRecordingFlow fullResState).2 =
        [TeardownStep.closeSession, TeardownStep.disconnectSource,
          TeardownStep.disconnectProcessor, TeardownStep.closeContext] :=
  ⟨rfl, rfl, rfl, rfl, c6_teardown_order fullResState rfl rfl rfl rfl⟩

/-- C8: teardown is idempotent — running it on an already-torn-down state
emits no release step and leaves the state unchanged. -/
theorem c8_teardown_idempotent (s : AppState) :
    stopRecordingFlow (stopRecordingFlow s).1 = ((stopRecordingFlow s).1, []) := by
  obtain ⟨r, p, t, f, e, se, so, pr, co⟩ := s
  rw [stopRecordingFlow_eq, stopRecordingFlow_eq]
  simp

/-- C10: every start invocation clears the transcript and the final audio
unconditionally (and issues no Text & Speech Service call), and a start
issued while already recording leaves exactly the cleared, fully
torn-down, non-recording state — no memo is produced. -/
theorem c10_start_clears_then_toggles :
    (∀ (micOk : Bool) (s : AppState),
        (handleStartRecording micOk s).1.transcript = "" ∧
          (handleStartRecording micOk s).1.finalAudio = none ∧
          (handleStartRecording micOk s).2 = []) ∧
      ∀ (micOk : Bool) (s : AppState), s.isRecording = true →
        (handleStartRecording micOk s).1 =
          { s with transcript := "", finalAudio := none, error := none, isRecording := false, session := false, source := false, processor := false, contextOpen := false } := by
  constructor
  · intro micOk s
    obtain ⟨r, p, t, f, e, se, so, pr, co⟩ := s
    cases r <;> cases micOk <;>
      simp [handleStartRecording, stopRecordingFlow_eq]
  · intro micOk s hrec
    obtain ⟨r, p, t, f, e, se, so, pr, co⟩ := s
    simp only at hrec
    subst hrec
    simp [handleStartRecording, stopRecordingFlow_eq]

/-- C10 witness: a start issued on a concrete mid-recording state discards
the transcript, clears the audio, and tears the session down. -/
theorem c10_start_clears_then_toggles_witness :
    fullResState.isRecording = true ∧
      (handleStartRecording true fullResState).1 =
        { fullResState with transcript := "", finalAudio := none, error := none, isRecording := false, session := false, source := false, processor := false, contextOpen := false } :=
  ⟨rfl, c10_start_clears_then_toggles.2 true fullResState rfl⟩

/-- C7: when the response carries no audio payload the try body raises the
specific no-audio error, but the function's own catch replaces it with the
same generic error used for every other synthesis failure, so the caller
never observes the distinct error. -/
theorem c7_specific_error_swallowed :
    synthTryBody (Except.ok ⟨none⟩) = Except.error noAudioMsg ∧
      synthesizeSpeech (Except.ok ⟨none⟩) = Except.error genericSynthMsg ∧
      synthesizeSpeech (Except.error "network error") = Except.error genericSynthMsg ∧
      noAudioMsg ≠ genericSynthMsg :=
  ⟨rfl, rfl, rfl, by decide⟩

end EchoScribe
